import Mathlib

set_option maxRecDepth 20000

/-
Verification of the response-recovery pipeline of the vetai backend
(src/main.py).  Python strings are modelled as lists of characters,
JSON values as an inductive type (numbers restricted to integers, which
covers every numeric literal exercised here), and the stateful HTTP
interaction as an explicit provider-behavior value together with a trace
of outbound calls and a stage label recording which branch produced the
result.
-/

namespace VetAI

/-- Python strings are modelled as lists of characters. -/
abbrev PyStr := List Char

/-- Left brace character, written by code point to keep literals plain. -/
def lbrace : Char := Char.ofNat 123

/-- Right brace character. -/
def rbrace : Char := Char.ofNat 125

/-- Backslash character. -/
def bslash : Char := '\\'

/-- Single-quote character. -/
def squote : Char := Char.ofNat 39

/-- Double-quote character. -/
def dquote : Char := '\"'

/-- Backtick character. -/
def btick : Char := Char.ofNat 96

/-- Python `str.strip` whitespace test (ASCII whitespace as in CPython). -/
def pyIsWs (c : Char) : Bool :=
  c = ' ' || c = '\t' || c = '\n' || c = '\r' || c = Char.ofNat 11 || c = Char.ofNat 12

/-- Drop leading whitespace, as Python `lstrip`. -/
def lstripPy (s : PyStr) : PyStr := s.dropWhile pyIsWs

/-- Drop trailing whitespace, as Python `rstrip`. -/
def rstripPy (s : PyStr) : PyStr := (s.reverse.dropWhile pyIsWs).reverse

/-- Python `str.strip`: drop whitespace at both ends. -/
def stripPy (s : PyStr) : PyStr := rstripPy (lstripPy s)

/-- Fuel-indexed worker for Python `str.replace`; the fuel only needs to
dominate the input length, and every call site supplies exactly that. -/
def replaceGo (p : Char) (ps rep : PyStr) : Nat → PyStr → PyStr
  | 0, s => s
  | _ + 1, [] => []
  | f + 1, c :: rest =>
    if (p :: ps).isPrefixOf (c :: rest)
    then rep ++ replaceGo p ps rep f (rest.drop ps.length)
    else c :: replaceGo p ps rep f rest

/-- Python `str.replace pat rep`: replace every non-overlapping occurrence
of the (nonempty) pattern `p :: ps`, scanning left to right and not
rescanning the replacement text. -/
def replaceL (p : Char) (ps rep s : PyStr) : PyStr :=
  replaceGo p ps rep s.length s

/-- JSON values; numbers are modelled as integers (every numeric literal
appearing in this development is an integer, and the schema only requires
numeric coercibility). -/
inductive Json where
  | null : Json
  | bool : Bool → Json
  | num : Int → Json
  | str : PyStr → Json
  | arr : List Json → Json
  | obj : List (PyStr × Json) → Json
deriving Repr

/-- Python `dict` truthiness of a parsed JSON value: `None`, `False`, `0`,
empty string, empty list and empty dict are falsy. -/
def truthy : Json → Bool
  | Json.null => false
  | Json.bool b => b
  | Json.num n => decide (n ≠ 0)
  | Json.str s => !s.isEmpty
  | Json.arr l => !l.isEmpty
  | Json.obj l => !l.isEmpty

/-- Insert a key into an association list with Python-dict overwrite
semantics: an existing key keeps its position and gets the new value. -/
def insertKey (k : PyStr) (v : Json) : List (PyStr × Json) → List (PyStr × Json)
  | [] => [(k, v)]
  | (k0, v0) :: rest =>
    if k0 = k then (k0, v) :: rest else (k0, v0) :: insertKey k v rest

/-- Build a dict from parsed members in order, later duplicates overwriting. -/
def buildDict (ms : List (PyStr × Json)) : List (PyStr × Json) :=
  ms.foldl (fun acc kv => insertKey kv.1 kv.2 acc) []

/-- Skip JSON whitespace (space, tab, newline, carriage return). -/
def skipWs : PyStr → PyStr
  | [] => []
  | c :: cs =>
    if c = ' ' || c = '\t' || c = '\n' || c = '\r' then skipWs cs else c :: cs

/-- Decode one escape character inside a JSON string literal. -/
def escChar (c : Char) : Option Char :=
  if c = dquote then some dquote
  else if c = bslash then some bslash
  else if c = '/' then some '/'
  else if c = 'n' then some '\n'
  else if c = 't' then some '\t'
  else if c = 'r' then some '\r'
  else if c = 'b' then some (Char.ofNat 8)
  else if c = 'f' then some (Char.ofNat 12)
  else none

/-- Fuel-indexed worker for `parseStringBody`. -/
def parseStrGo : Nat → PyStr → Option (PyStr × PyStr)
  | 0, _ => none
  | _ + 1, [] => none
  | f + 1, c :: cs =>
    if c = dquote then some ([], cs)
    else if c = bslash then
      match cs with
      | [] => none
      | e :: cs2 =>
        match escChar e with
        | none => none
        | some d =>
          match parseStrGo f cs2 with
          | none => none
          | some (body, rest) => some (d :: body, rest)
    else
      match parseStrGo f cs with
      | none => none
      | some (body, rest) => some (c :: body, rest)

/-- Parse the body of a JSON string literal, after the opening quote;
returns the decoded content and the rest of the input after the closing
quote. -/
def parseStringBody (s : PyStr) : Option (PyStr × PyStr) :=
  parseStrGo s.length s

/-- Digit test. -/
def isDigitCh (c : Char) : Bool := '0' ≤ c && c ≤ '9'

/-- Accumulate decimal digits into a natural number; returns the value and
the rest of the input (requires at least one digit to have been seen,
tracked by the caller). -/
def parseDigits (acc : Nat) : PyStr → Nat × PyStr
  | [] => (acc, [])
  | c :: cs =>
    if isDigitCh c then parseDigits (acc * 10 + (c.toNat - 48)) cs
    else (acc, c :: cs)

/-- Parse a JSON integer literal (optional minus sign, digit sequence). -/
def parseNumber : PyStr → Option (Int × PyStr)
  | [] => none
  | c :: cs =>
    if c = '-' then
      match cs with
      | [] => none
      | d :: ds =>
        if isDigitCh d then
          let (n, rest) := parseDigits (d.toNat - 48) ds
          some (-(Int.ofNat n), rest)
        else none
    else if isDigitCh c then
      let (n, rest) := parseDigits (c.toNat - 48) cs
      some (Int.ofNat n, rest)
    else none

mutual

/-- Parse one JSON value from the input (fuel-indexed recursive descent). -/
def parseValue : Nat → PyStr → Option (Json × PyStr)
  | 0, _ => none
  | f + 1, s =>
    match skipWs s with
    | [] => none
    | c :: rest =>
      if c = dquote then
        match parseStringBody rest with
        | some (body, r) => some (Json.str body, r)
        | none => none
      else if c = lbrace then
        match skipWs rest with
        | [] => none
        | c2 :: rest2 =>
          if c2 = rbrace then some (Json.obj [], rest2)
          else
            match parseMembersFrom f (c2 :: rest2) with
            | some (ms, r) => some (Json.obj (buildDict ms), r)
            | none => none
      else if c = '[' then
        match skipWs rest with
        | [] => none
        | c2 :: rest2 =>
          if c2 = ']' then some (Json.arr [], rest2)
          else
            match parseElemsFrom f (c2 :: rest2) with
            | some (es, r) => some (Json.arr es, r)
            | none => none
      else if c = 't' then
        if ("rue".data).isPrefixOf rest then some (Json.bool true, rest.drop 3)
        else none
      else if c = 'f' then
        if ("alse".data).isPrefixOf rest then some (Json.bool false, rest.drop 4)
        else none
      else if c = 'n' then
        if ("ull".data).isPrefixOf rest then some (Json.null, rest.drop 3)
        else none
      else
        match parseNumber (c :: rest) with
        | some (n, r) => some (Json.num n, r)
        | none => none

/-- Parse a nonempty member list of a JSON object, up to and including the
closing brace. -/
def parseMembersFrom : Nat → PyStr → Option (List (PyStr × Json) × PyStr)
  | 0, _ => none
  | f + 1, s =>
    match skipWs s with
    | [] => none
    | c :: rest =>
      if c = dquote then
        match parseStringBody rest with
        | none => none
        | some (key, r1) =>
          match skipWs r1 with
          | [] => none
          | c2 :: r2 =>
            if c2 = ':' then
              match parseValue f r2 with
              | none => none
              | some (v, r3) =>
                match skipWs r3 with
                | [] => none
                | c3 :: r4 =>
                  if c3 = ',' then
                    match parseMembersFrom f r4 with
                    | some (ms, r5) => some ((key, v) :: ms, r5)
                    | none => none
                  else if c3 = rbrace then some ([(key, v)], r4)
                  else none
            else none
      else none

/-- Parse a nonempty element list of a JSON array, up to and including the
closing bracket. -/
def parseElemsFrom : Nat → PyStr → Option (List Json × PyStr)
  | 0, _ => none
  | f + 1, s =>
    match parseValue f s with
    | none => none
    | some (v, r1) =>
      match skipWs r1 with
      | [] => none
      | c :: r2 =>
        if c = ',' then
          match parseElemsFrom f r2 with
          | some (es, r3) => some (v :: es, r3)
          | none => none
        else if c = ']' then some ([v], r2)
        else none

end

/-- Python `json.loads`: parse one JSON document and require that only
whitespace follows it; any failure is a `JSONDecodeError`, modelled as
`none`. -/
def json_loads (s : PyStr) : Option Json :=
  match parseValue (2 * s.length + 8) s with
  | none => none
  | some (j, rest) => if skipWs rest = [] then some j else none

/-- Code fence opening marker from the source. -/
def fenceJson : PyStr := "```json".data

/-- Code fence closing marker from the source. -/
def fence3 : PyStr := "```".data

/-- Textual transform chain of `repair_json` in src/main.py: strip, strip
markdown fences, fix escaping ("\n" removed, escaped quotes unescaped,
True/False lowercased), drop trailing commas written directly before a
closing brace or bracket. -/
def repairText (s : PyStr) : PyStr :=
  let c0 := stripPy s
  let c1 := if fenceJson.isPrefixOf c0 then c0.drop 7 else c0
  let c2 := if fence3.isSuffixOf c1 then stripPy (c1.take (c1.length - 3)) else c1
  let c3 := replaceL bslash ['n'] [] c2
  let c4 := replaceL bslash [squote] [squote] c3
  let c5 := replaceL bslash [dquote] [dquote] c4
  let c6 := replaceL 'T' ("rue".data) ("true".data) c5
  let c7 := replaceL 'F' ("alse".data) ("false".data) c6
  let c8 := replaceL ',' [rbrace] [rbrace] c7
  replaceL ',' [']'] [']'] c8

/-- The function `repair_json` of src/main.py: apply the textual transform
chain and then `json.loads`; a decode error yields `None`. -/
def repair_json (s : PyStr) : Option Json :=
  json_loads (repairText s)

/-- Input model `StartupIdea` of src/main.py. -/
structure StartupIdea where
  title : PyStr
  problem : PyStr
  solution : PyStr
  audience : PyStr
  businessModel : PyStr
deriving DecidableEq, Repr

/-- Model `Score` of src/main.py (float fields modelled as integers; the
validator never inspects magnitude). -/
structure Score where
  overall : Int
  marketPotential : Int
  technicalFeasibility : Int
deriving DecidableEq, Repr

/-- Model `SwotAnalysis` of src/main.py. -/
structure SwotAnalysis where
  strengths : List PyStr
  weaknesses : List PyStr
  opportunities : List PyStr
  threats : List PyStr
deriving DecidableEq, Repr

/-- Model `MarketAnalysis` of src/main.py. -/
structure MarketAnalysis where
  targetMarket : PyStr
  tam : PyStr
  sam : PyStr
  som : PyStr
  growthRate : PyStr
  trends : List PyStr
  competitors : List PyStr
  customerNeeds : List PyStr
  barriersToEntry : List PyStr
deriving DecidableEq, Repr

/-- Model `StartupEvaluation` of src/main.py. -/
structure StartupEvaluation where
  score : Score
  swotAnalysis : SwotAnalysis
  mvpSuggestions : List PyStr
  businessModelIdeas : List PyStr
  marketAnalysis : MarketAnalysis
deriving DecidableEq, Repr

/-- The constant `FALLBACK_RESPONSE` of src/main.py. -/
def FALLBACK_RESPONSE : StartupEvaluation :=
  ⟨⟨75, 70, 80⟩,
   ⟨["Strong concept".data, "Clear target market".data],
    ["High competition".data, "Complex implementation".data],
    ["Market growth".data, "Tech advancements".data],
    ["Regulatory changes".data, "Economic shifts".data]⟩,
   ["Develop core feature".data, "Create landing page".data, "Conduct user testing".data],
   ["Subscription model".data, "Freemium approach".data],
   ⟨"Global tech users".data, "$50B".data, "$10B".data, "$1B".data, "12% CAGR".data,
    ["Digital transformation".data, "AI adoption".data],
    ["Existing solutions".data, "Tech giants".data],
    ["Ease of use".data, "Cost efficiency".data],
    ["Market saturation".data, "High capital needs".data]⟩⟩

/-- Lookup of a key in a parsed JSON object (fields have unique keys by
construction, so first match is dict lookup). -/
def lookup (q : PyStr) : List (PyStr × Json) → Option Json
  | [] => none
  | (k, v) :: rest => if k = q then some v else lookup q rest

/-- Pydantic `str` field: accepts a JSON string. -/
def asStr : Json → Option PyStr
  | Json.str s => some s
  | _ => none

/-- Pydantic `float` field: accepts a JSON number (no range check). -/
def asNum : Json → Option Int
  | Json.num n => some n
  | _ => none

/-- Every element must be a string. -/
def strList : List Json → Option (List PyStr)
  | [] => some []
  | Json.str s :: rest =>
    match strList rest with
    | some l => some (s :: l)
    | none => none
  | _ => none

/-- Pydantic `List[str]` field: accepts a JSON array of strings. -/
def asStrList : Json → Option (List PyStr)
  | Json.arr l => strList l
  | _ => none

/-- Validation of the nested `Score` model: requires a JSON object with the
three numeric fields, extra keys ignored. -/
def parseScore (j : Json) : Option Score :=
  match j with
  | Json.obj f =>
    ((lookup ("overall".data) f).bind asNum).bind fun o =>
    ((lookup ("marketPotential".data) f).bind asNum).bind fun m =>
    ((lookup ("technicalFeasibility".data) f).bind asNum).bind fun t =>
    some ⟨o, m, t⟩
  | _ => none

/-- Validation of the nested `SwotAnalysis` model. -/
def parseSwot (j : Json) : Option SwotAnalysis :=
  match j with
  | Json.obj f =>
    ((lookup ("strengths".data) f).bind asStrList).bind fun s =>
    ((lookup ("weaknesses".data) f).bind asStrList).bind fun w =>
    ((lookup ("opportunities".data) f).bind asStrList).bind fun o =>
    ((lookup ("threats".data) f).bind asStrList).bind fun t =>
    some ⟨s, w, o, t⟩
  | _ => none

/-- Validation of the nested `MarketAnalysis` model. -/
def parseMarket (j : Json) : Option MarketAnalysis :=
  match j with
  | Json.obj f =>
    ((lookup ("targetMarket".data) f).bind asStr).bind fun tm =>
    ((lookup ("tam".data) f).bind asStr).bind fun ta =>
    ((lookup ("sam".data) f).bind asStr).bind fun sa =>
    ((lookup ("som".data) f).bind asStr).bind fun so =>
    ((lookup ("growthRate".data) f).bind asStr).bind fun gr =>
    ((lookup ("trends".data) f).bind asStrList).bind fun tr =>
    ((lookup ("competitors".data) f).bind asStrList).bind fun co =>
    ((lookup ("customerNeeds".data) f).bind asStrList).bind fun cn =>
    ((lookup ("barriersToEntry".data) f).bind asStrList).bind fun ba =>
    some ⟨tm, ta, sa, so, gr, tr, co, cn, ba⟩
  | _ => none

/-- Pydantic validation `StartupEvaluation(**parsed_data)` of src/main.py:
requires the five top-level keys with schema-conforming values; extra keys
are ignored; any missing key or wrong type is a `ValidationError`,
modelled as `none`. -/
def validate (j : Json) : Option StartupEvaluation :=
  match j with
  | Json.obj f =>
    ((lookup ("score".data) f).bind parseScore).bind fun sc =>
    ((lookup ("swotAnalysis".data) f).bind parseSwot).bind fun sw =>
    ((lookup ("mvpSuggestions".data) f).bind asStrList).bind fun mv =>
    ((lookup ("businessModelIdeas".data) f).bind asStrList).bind fun bm =>
    ((lookup ("marketAnalysis".data) f).bind parseMarket).bind fun ma =>
    some ⟨sc, sw, mv, bm, ma⟩
  | _ => none

/-- Outbound HTTP calls issued by `validate_startup_idea`. -/
inductive Call where
  | getModels : Call
  | postChat : Call
deriving DecidableEq, Repr

/-- Which branch of the orchestrator produced the result (mirrors the
logging in src/main.py). -/
inductive Stage where
  | missingKey : Stage
  | livenessNon200 : Stage
  | httpError : Stage
  | emptyChoices : Stage
  | exception : Stage
  | repairFailed : Stage
  | validationFailed : Stage
  | ok : Stage
deriving DecidableEq, Repr

/-- Behavior of the external provider during one request: the outcome of
the liveness GET (`Except.error` is a raised connection exception,
`Except.ok` a status code) and the outcome of the generation POST (status
code and response body; body `none` means `response.json()` raises). -/
structure ProviderBehavior where
  modelsResult : Except Unit Nat
  postResult : Except Unit (Nat × Option Json)
deriving Repr

/-- Extraction of `response_data["choices"][0]["message"]["content"]` of
src/main.py, including the guard `if not response_data.get("choices")`.
Any Python exception along the way (non-dict body, non-list truthy
choices, missing nested keys, non-string content) is caught by the outer
`except Exception` handler, modelled as `Stage.exception`. -/
def extractContent (body : Json) : Except Stage PyStr :=
  match body with
  | Json.obj f =>
    let choices := (lookup ("choices".data) f).getD Json.null
    if truthy choices then
      match choices with
      | Json.arr (first :: _) =>
        match first with
        | Json.obj mf =>
          match lookup ("message".data) mf with
          | some (Json.obj cf) =>
            match lookup ("content".data) cf with
            | some (Json.str s) => Except.ok s
            | some _ => Except.error Stage.exception
            | none => Except.error Stage.exception
          | some _ => Except.error Stage.exception
          | none => Except.error Stage.exception
        | _ => Except.error Stage.exception
      | _ => Except.error Stage.exception
    else Except.error Stage.emptyChoices
  | _ => Except.error Stage.exception

/-- Repair-and-validate tail of `validate_startup_idea` (src/main.py lines
232-245): `repair_json`, then the truthiness test `if not parsed_data`
(which sends falsy parses down the repair-failed branch), then pydantic
validation; a truthy non-dict parse makes `StartupEvaluation(**...)`
raise `TypeError`, caught by the outer handler. -/
def processContent (c : PyStr) : StartupEvaluation × Stage :=
  match repair_json c with
  | none => (FALLBACK_RESPONSE, Stage.repairFailed)
  | some j =>
    if truthy j then
      match j with
      | Json.obj _ =>
        match validate j with
        | some v => (v, Stage.ok)
        | none => (FALLBACK_RESPONSE, Stage.validationFailed)
      | _ => (FALLBACK_RESPONSE, Stage.exception)
    else (FALLBACK_RESPONSE, Stage.repairFailed)

/-- The orchestrator `validate_startup_idea` of src/main.py, over an
explicit provider behavior.  Returns the response value, the trace of
outbound calls, and the branch label.  The empty-string credential case
follows Python truthiness of `if not GROQ_API_KEY`; a non-2xx POST status
is the `raise_for_status` / `HTTPStatusError` path. -/
def validate_startup_idea (_idea : StartupIdea) (apiKey : Option PyStr)
    (beh : ProviderBehavior) : StartupEvaluation × List Call × Stage :=
  match apiKey with
  | none => (FALLBACK_RESPONSE, [], Stage.missingKey)
  | some k =>
    if k = [] then (FALLBACK_RESPONSE, [], Stage.missingKey)
    else
      match beh.modelsResult with
      | Except.error _ => (FALLBACK_RESPONSE, [Call.getModels], Stage.exception)
      | Except.ok status =>
        if status = 200 then
          match beh.postResult with
          | Except.error _ =>
            (FALLBACK_RESPONSE, [Call.getModels, Call.postChat], Stage.exception)
          | Except.ok (pstatus, obody) =>
            if 200 ≤ pstatus ∧ pstatus < 300 then
              match obody with
              | none =>
                (FALLBACK_RESPONSE, [Call.getModels, Call.postChat], Stage.exception)
              | some body =>
                match extractContent body with
                | Except.error st =>
                  (FALLBACK_RESPONSE, [Call.getModels, Call.postChat], st)
                | Except.ok content =>
                  let r := processContent content
                  (r.1, [Call.getModels, Call.postChat], r.2)
            else (FALLBACK_RESPONSE, [Call.getModels, Call.postChat], Stage.httpError)
        else (FALLBACK_RESPONSE, [Call.getModels], Stage.livenessNon200)

/-! ### Concrete test data -/

/-- A sample request input (the idea only feeds the prompt text, so it
does not influence the modelled provider behavior). -/
def sampleIdea : StartupIdea :=
  ⟨"EcoTrack".data, "food waste".data, "app".data, "urban renters".data,
   "freemium".data⟩

/-- A minified, Schema-valid completion exactly as a strict provider would
emit it.  It contains none of the substrings rewritten by the repair
chain, so the chain leaves it untouched. -/
def goodJson : String :=
  "\x7b\"score\":\x7b\"overall\":1,\"marketPotential\":2,\"technicalFeasibility\":3\x7d,\"swotAnalysis\":\x7b\"strengths\":[\"s1\"],\"weaknesses\":[],\"opportunities\":[],\"threats\":[]\x7d,\"mvpSuggestions\":[\"m1\"],\"businessModelIdeas\":[\"b1\"],\"marketAnalysis\":\x7b\"targetMarket\":\"tm\",\"tam\":\"1\",\"sam\":\"2\",\"som\":\"3\",\"growthRate\":\"g\",\"trends\":[],\"competitors\":[],\"customerNeeds\":[],\"barriersToEntry\":[]\x7d\x7d"

/-- The top-level fields `goodJson` parses to. -/
def goodFields : List (PyStr × Json) :=
  [("score".data, Json.obj
      [("overall".data, Json.num 1),
       ("marketPotential".data, Json.num 2),
       ("technicalFeasibility".data, Json.num 3)]),
   ("swotAnalysis".data, Json.obj
      [("strengths".data, Json.arr [Json.str ("s1".data)]),
       ("weaknesses".data, Json.arr []),
       ("opportunities".data, Json.arr []),
       ("threats".data, Json.arr [])]),
   ("mvpSuggestions".data, Json.arr [Json.str ("m1".data)]),
   ("businessModelIdeas".data, Json.arr [Json.str ("b1".data)]),
   ("marketAnalysis".data, Json.obj
      [("targetMarket".data, Json.str ("tm".data)),
       ("tam".data, Json.str ("1".data)),
       ("sam".data, Json.str ("2".data)),
       ("som".data, Json.str ("3".data)),
       ("growthRate".data, Json.str ("g".data)),
       ("trends".data, Json.arr []),
       ("competitors".data, Json.arr []),
       ("customerNeeds".data, Json.arr []),
       ("barriersToEntry".data, Json.arr [])])]

/-- The JSON value `goodJson` parses to. -/
def goodJsonVal : Json := Json.obj goodFields

/-- The evaluation `goodJson` validates to. -/
def goodEval : StartupEvaluation :=
  ⟨⟨1, 2, 3⟩, ⟨["s1".data], [], [], []⟩, ["m1".data], ["b1".data],
   ⟨"tm".data, "1".data, "2".data, "3".data, "g".data, [], [], [], []⟩⟩

/-- The identity-pass-through probe of C2: the same Schema-valid
serialization, but with a string field whose content contains the
substring "True". -/
def c2Str : String :=
  "\x7b\"score\":\x7b\"overall\":1,\"marketPotential\":2,\"technicalFeasibility\":3\x7d,\"swotAnalysis\":\x7b\"strengths\":[\"s1\"],\"weaknesses\":[],\"opportunities\":[],\"threats\":[]\x7d,\"mvpSuggestions\":[\"m1\"],\"businessModelIdeas\":[\"b1\"],\"marketAnalysis\":\x7b\"targetMarket\":\"True believers\",\"tam\":\"1\",\"sam\":\"2\",\"som\":\"3\",\"growthRate\":\"g\",\"trends\":[],\"competitors\":[],\"customerNeeds\":[],\"barriersToEntry\":[]\x7d\x7d"

/-- The value `c2Str` strict-parses to. -/
def c2Json : Json :=
  Json.obj
    [("score".data, Json.obj
        [("overall".data, Json.num 1),
         ("marketPotential".data, Json.num 2),
         ("technicalFeasibility".data, Json.num 3)]),
     ("swotAnalysis".data, Json.obj
        [("strengths".data, Json.arr [Json.str ("s1".data)]),
         ("weaknesses".data, Json.arr []),
         ("opportunities".data, Json.arr []),
         ("threats".data, Json.arr [])]),
     ("mvpSuggestions".data, Json.arr [Json.str ("m1".data)]),
     ("businessModelIdeas".data, Json.arr [Json.str ("b1".data)]),
     ("marketAnalysis".data, Json.obj
        [("targetMarket".data, Json.str ("True believers".data)),
         ("tam".data, Json.str ("1".data)),
         ("sam".data, Json.str ("2".data)),
         ("som".data, Json.str ("3".data)),
         ("growthRate".data, Json.str ("g".data)),
         ("trends".data, Json.arr []),
         ("competitors".data, Json.arr []),
         ("customerNeeds".data, Json.arr []),
         ("barriersToEntry".data, Json.arr [])])]

/-- What a faithful identity pass-through of `c2Str` would return. -/
def c2Eval : StartupEvaluation :=
  ⟨⟨1, 2, 3⟩, ⟨["s1".data], [], [], []⟩, ["m1".data], ["b1".data],
   ⟨"True believers".data, "1".data, "2".data, "3".data, "g".data,
    [], [], [], []⟩⟩

/-- What the pipeline actually returns for `c2Str`: the blanket
True-to-true replacement has rewritten the string field's content. -/
def c2LowerEval : StartupEvaluation :=
  ⟨⟨1, 2, 3⟩, ⟨["s1".data], [], [], []⟩, ["m1".data], ["b1".data],
   ⟨"true believers".data, "1".data, "2".data, "3".data, "g".data,
    [], [], [], []⟩⟩

/-- The spec's prose-wrapped completion scenario of C3. -/
def c3Str : String := "Sure! Here is the JSON: " ++ goodJson ++ " Hope that helps!"

/-- C4 probe with a trailing comma written directly before a closing
bracket (the only shape the source rewrites). -/
def c4adj : String :=
  "\x7b\"score\":\x7b\"overall\":1,\"marketPotential\":2,\"technicalFeasibility\":3\x7d,\"swotAnalysis\":\x7b\"strengths\":[\"s1\"],\"weaknesses\":[],\"opportunities\":[],\"threats\":[]\x7d,\"mvpSuggestions\":[\"m1\",],\"businessModelIdeas\":[\"b1\"],\"marketAnalysis\":\x7b\"targetMarket\":\"tm\",\"tam\":\"1\",\"sam\":\"2\",\"som\":\"3\",\"growthRate\":\"g\",\"trends\":[],\"competitors\":[],\"customerNeeds\":[],\"barriersToEntry\":[]\x7d\x7d"

/-- C4 probe with the trailing comma separated from the closing bracket
by one space. -/
def c4ws : String :=
  "\x7b\"score\":\x7b\"overall\":1,\"marketPotential\":2,\"technicalFeasibility\":3\x7d,\"swotAnalysis\":\x7b\"strengths\":[\"s1\"],\"weaknesses\":[],\"opportunities\":[],\"threats\":[]\x7d,\"mvpSuggestions\":[\"m1\", ],\"businessModelIdeas\":[\"b1\"],\"marketAnalysis\":\x7b\"targetMarket\":\"tm\",\"tam\":\"1\",\"sam\":\"2\",\"som\":\"3\",\"growthRate\":\"g\",\"trends\":[],\"competitors\":[],\"customerNeeds\":[],\"barriersToEntry\":[]\x7d\x7d"

/-- C5 witness completion: a JSON object carrying none of the required
keys. -/
def c5Str : String := "\x7b\"foo\":1\x7d"

/-- Schema-shaped object whose three score values are free; used to show
the validator never inspects numeric magnitude. -/
def scoreProbe (a b c : Int) : Json :=
  Json.obj
    [("score".data, Json.obj
        [("overall".data, Json.num a),
         ("marketPotential".data, Json.num b),
         ("technicalFeasibility".data, Json.num c)]),
     ("swotAnalysis".data, Json.obj
        [("strengths".data, Json.arr []),
         ("weaknesses".data, Json.arr []),
         ("opportunities".data, Json.arr []),
         ("threats".data, Json.arr [])]),
     ("mvpSuggestions".data, Json.arr []),
     ("businessModelIdeas".data, Json.arr []),
     ("marketAnalysis".data, Json.obj
        [("targetMarket".data, Json.str ("t".data)),
         ("tam".data, Json.str ("1".data)),
         ("sam".data, Json.str ("2".data)),
         ("som".data, Json.str ("3".data)),
         ("growthRate".data, Json.str ("g".data)),
         ("trends".data, Json.arr []),
         ("competitors".data, Json.arr []),
         ("customerNeeds".data, Json.arr []),
         ("barriersToEntry".data, Json.arr [])])]

/-- The evaluation `scoreProbe a b c` validates to. -/
def scoreProbeEval (a b c : Int) : StartupEvaluation :=
  ⟨⟨a, b, c⟩, ⟨[], [], [], []⟩, [], [],
   ⟨"t".data, "1".data, "2".data, "3".data, "g".data, [], [], [], []⟩⟩

/-- Serialization of `scoreProbe 150 (-5) 80`: scores far outside
[0,100]. -/
def outOfRangeJson : String :=
  "\x7b\"score\":\x7b\"overall\":150,\"marketPotential\":-5,\"technicalFeasibility\":80\x7d,\"swotAnalysis\":\x7b\"strengths\":[],\"weaknesses\":[],\"opportunities\":[],\"threats\":[]\x7d,\"mvpSuggestions\":[],\"businessModelIdeas\":[],\"marketAnalysis\":\x7b\"targetMarket\":\"t\",\"tam\":\"1\",\"sam\":\"2\",\"som\":\"3\",\"growthRate\":\"g\",\"trends\":[],\"competitors\":[],\"customerNeeds\":[],\"barriersToEntry\":[]\x7d\x7d"

/-! ### Supporting lemmas -/

/-- A replacement pass leaves any string untouched in which the first
character of the pattern never occurs. -/
theorem replaceGo_eq_self_of_not_mem (p : Char) (ps rep : PyStr) (f : Nat)
    (s : PyStr) (h : p ∉ s) : replaceGo p ps rep f s = s := by
  induction f generalizing s with
  | zero => rfl
  | succ f ih =>
    cases s with
    | nil => rfl
    | cons c rest =>
      have hpc : ¬ ((p :: ps).isPrefixOf (c :: rest) = true) := by
        intro hpre
        rw [List.isPrefixOf_cons₂] at hpre
        have : p = c := by
          have := (Bool.and_eq_true _ _).mp hpre |>.1
          exact eq_of_beq this
        exact h (this ▸ List.mem_cons_self c rest)
      simp only [replaceGo, if_neg hpc, List.cons.injEq, true_and]
      exact ih rest (fun hm => h (List.mem_cons_of_mem _ hm))

/-- The wrapper version of the previous lemma. -/
theorem replaceL_eq_self_of_not_mem (p : Char) (ps rep : PyStr) (s : PyStr)
    (h : p ∉ s) : replaceL p ps rep s = s :=
  replaceGo_eq_self_of_not_mem p ps rep s.length s h

/-- Characters of the left-stripped string come from the original. -/
theorem mem_of_mem_lstripPy {c : Char} {s : PyStr} (h : c ∈ lstripPy s) :
    c ∈ s :=
  (List.dropWhile_sublist pyIsWs).mem h

/-- Characters of the right-stripped string come from the original. -/
theorem mem_of_mem_rstripPy {c : Char} {s : PyStr} (h : c ∈ rstripPy s) :
    c ∈ s := by
  unfold rstripPy at h
  rw [List.mem_reverse] at h
  have := (List.dropWhile_sublist pyIsWs).mem h
  rwa [List.mem_reverse] at this

/-- Characters of the stripped string come from the original. -/
theorem mem_of_mem_stripPy {c : Char} {s : PyStr} (h : c ∈ stripPy s) :
    c ∈ s :=
  mem_of_mem_lstripPy (mem_of_mem_rstripPy h)

/-- A nonempty pattern can only be a Boolean prefix of a list containing
its first character. -/
theorem head_mem_of_isPrefixOf {p : Char} {ps l : PyStr}
    (h : (p :: ps).isPrefixOf l = true) : p ∈ l := by
  cases l with
  | nil => simp at h
  | cons b bs =>
    rw [List.isPrefixOf_cons₂] at h
    have : p = b := eq_of_beq ((Bool.and_eq_true _ _).mp h).1
    exact this ▸ List.mem_cons_self b bs

/-- A nonempty pattern can only be a Boolean suffix of a list containing
its first character. -/
theorem head_mem_of_isSuffixOf {p : Char} {ps l : PyStr}
    (h : (p :: ps).isSuffixOf l = true) : p ∈ l := by
  have hs : (p :: ps) <:+ l := List.isSuffixOf_iff_suffix.mp h
  exact hs.mem (List.mem_cons_self p ps)

/-- Dropping a prefix satisfying `p` is idempotent. -/
theorem dropWhile_idem (p : Char → Bool) (l : PyStr) :
    (l.dropWhile p).dropWhile p = l.dropWhile p := by
  induction l with
  | nil => rfl
  | cons c cs ih =>
    by_cases h : p c
    · simp [List.dropWhile_cons, h, ih]
    · simp [List.dropWhile_cons, h]

/-- Left strip is idempotent. -/
theorem lstripPy_idem (s : PyStr) : lstripPy (lstripPy s) = lstripPy s :=
  dropWhile_idem pyIsWs s

/-- Right strip is idempotent. -/
theorem rstripPy_idem (s : PyStr) : rstripPy (rstripPy s) = rstripPy s := by
  unfold rstripPy
  rw [List.reverse_reverse, dropWhile_idem]

/-- The right-stripped string is a prefix of the original. -/
theorem rstripPy_prefix (s : PyStr) : rstripPy s <+: s := by
  unfold rstripPy
  have h : s.reverse.dropWhile pyIsWs <:+ s.reverse := List.dropWhile_suffix pyIsWs
  have h2 : (s.reverse.dropWhile pyIsWs).reverse <+: s.reverse.reverse :=
    List.reverse_prefix.mpr h
  rwa [List.reverse_reverse] at h2

/-- If a string has no leading whitespace then neither has any
right-stripped version of it. -/
theorem lstripPy_rstripPy_of_lstripPy_eq {s : PyStr} (h : lstripPy s = s) :
    lstripPy (rstripPy s) = rstripPy s := by
  cases hr : rstripPy s with
  | nil => rfl
  | cons c cs =>
    obtain ⟨t, ht⟩ := rstripPy_prefix s
    rw [hr] at ht
    have hcw : pyIsWs c = false := by
      by_contra hw
      have hw : pyIsWs c = true := by
        cases hx : pyIsWs c
        · exact absurd hx hw
        · rfl
      have hs : s = c :: (cs ++ t) := by rw [← ht]; simp
      have : lstripPy s = lstripPy (cs ++ t) := by
        rw [hs]; simp [lstripPy, List.dropWhile_cons, hw]
      have hlen : (lstripPy (cs ++ t)).length ≤ (cs ++ t).length :=
        (List.dropWhile_sublist pyIsWs).length_le
      rw [h, hs] at this
      have : (c :: (cs ++ t)).length ≤ (cs ++ t).length := this ▸ hlen
      simp at this
    simp [lstripPy, List.dropWhile_cons, hcw]

/-- Python `strip` is idempotent. -/
theorem stripPy_idem (s : PyStr) : stripPy (stripPy s) = stripPy s := by
  unfold stripPy
  rw [lstripPy_rstripPy_of_lstripPy_eq (lstripPy_idem s), rstripPy_idem]

/-- Characters on which every pattern of the repair chain is inert: no
backslash, comma, backtick, or capital T/F. -/
def safeChar (c : Char) : Bool :=
  !(c = bslash || c = ',' || c = btick || c = 'T' || c = 'F')

/-- On strings of inert characters the whole repair chain degenerates to
the initial `strip`: no fence marker can match and no replacement pattern
occurs. -/
theorem repairText_eq_strip_of_safe (s : PyStr)
    (h : ∀ c ∈ s, safeChar c = true) : repairText s = stripPy s := by
  have hsafe : ∀ c ∈ stripPy s, safeChar c = true :=
    fun c hc => h c (mem_of_mem_stripPy hc)
  have hmem : ∀ (c : Char), safeChar c = false → c ∉ stripPy s := by
    intro c hc hmemc
    rw [hsafe c hmemc] at hc
    cases hc
  have hbt : btick ∉ stripPy s := hmem btick (by decide)
  have hbs : bslash ∉ stripPy s := hmem bslash (by decide)
  have hT : 'T' ∉ stripPy s := hmem 'T' (by decide)
  have hF : 'F' ∉ stripPy s := hmem 'F' (by decide)
  have hcm : ',' ∉ stripPy s := hmem ',' (by decide)
  have hfence1 : ¬ (fenceJson.isPrefixOf (stripPy s) = true) := by
    intro hx
    exact hbt (head_mem_of_isPrefixOf hx)
  have hfence2 : ¬ (fence3.isSuffixOf (stripPy s) = true) := by
    intro hx
    exact hbt (head_mem_of_isSuffixOf hx)
  unfold repairText
  simp only [if_neg hfence1, if_neg hfence2]
  rw [replaceL_eq_self_of_not_mem _ _ _ _ hbs,
      replaceL_eq_self_of_not_mem _ _ _ _ hbs,
      replaceL_eq_self_of_not_mem _ _ _ _ hbs,
      replaceL_eq_self_of_not_mem _ _ _ _ hT,
      replaceL_eq_self_of_not_mem _ _ _ _ hF,
      replaceL_eq_self_of_not_mem _ _ _ _ hcm,
      replaceL_eq_self_of_not_mem _ _ _ _ hcm]

/-- A value that validates is truthy: validation only succeeds on an
object carrying the required keys, hence a nonempty dict. -/
theorem truthy_of_validate {j : Json} {v : StartupEvaluation}
    (h : validate j = some v) : truthy j = true := by
  cases j with
  | null => simp [validate] at h
  | bool b => simp [validate] at h
  | num n => simp [validate] at h
  | str s => simp [validate] at h
  | arr l => simp [validate] at h
  | obj f =>
    cases f with
    | nil => simp [validate, lookup] at h
    | cons a r => rfl

/-- Unfolding of `validate` at an object argument. -/
theorem validate_obj_def (f : List (PyStr × Json)) :
    validate (Json.obj f) =
      (((lookup ("score".data) f).bind parseScore).bind fun sc =>
       ((lookup ("swotAnalysis".data) f).bind parseSwot).bind fun sw =>
       ((lookup ("mvpSuggestions".data) f).bind asStrList).bind fun mv =>
       ((lookup ("businessModelIdeas".data) f).bind asStrList).bind fun bm =>
       ((lookup ("marketAnalysis".data) f).bind parseMarket).bind fun ma =>
       some ⟨sc, sw, mv, bm, ma⟩) := rfl

/-- Validation fails on any object missing one of the five required
top-level keys. -/
theorem validate_none_of_missing {f : List (PyStr × Json)}
    (h : lookup ("score".data) f = none ∨ lookup ("swotAnalysis".data) f = none ∨
         lookup ("mvpSuggestions".data) f = none ∨
         lookup ("businessModelIdeas".data) f = none ∨
         lookup ("marketAnalysis".data) f = none) :
    validate (Json.obj f) = none := by
  rw [validate_obj_def]
  rcases h with h | h | h | h | h <;> rw [h] <;> simp

/-! ### Claim theorems -/

/-- C2, counterexample: `c2Str` is a strict-JSON serialization of a
Schema-valid `StartupEvaluation` (it parses and validates to `c2Eval`),
yet the pipeline does not return it unchanged: the blanket `True → true`
replacement rewrites the contents of a string field before parsing. -/
theorem passthrough_mutates_true_substring :
    json_loads (c2Str.data) = some c2Json ∧
    validate c2Json = some c2Eval ∧
    (processContent (c2Str.data)).1 ≠ c2Eval := by
  refine ⟨rfl, rfl, ?_⟩
  have h : (processContent (c2Str.data)).1 = c2LowerEval := rfl
  rw [h]
  decide

/-- C2, amended: for every completion on which the repair text chain acts
as the identity and which strict-parses to a Schema-valid object, the
pipeline returns the parsed completion unchanged. -/
theorem identity_passthrough_on_unchanged_text (c : PyStr) (j : Json)
    (v : StartupEvaluation) (h0 : repairText c = c)
    (h1 : json_loads c = some j) (h2 : validate j = some v) :
    processContent c = (v, Stage.ok) := by
  have hj : repair_json c = some j := by
    unfold repair_json
    rw [h0, h1]
  have ht : truthy j = true := truthy_of_validate h2
  cases j with
  | null => simp [validate] at h2
  | bool b => simp [validate] at h2
  | num n => simp [validate] at h2
  | str s => simp [validate] at h2
  | arr l => simp [validate] at h2
  | obj f =>
    unfold processContent
    rw [hj]
    simp [ht, h2]

/-- Witness for the amended C2 at the concrete completion `goodJson`. -/
theorem identity_passthrough_witness :
    processContent (goodJson.data) = (goodEval, Stage.ok) :=
  identity_passthrough_on_unchanged_text (goodJson.data) goodJsonVal goodEval
    rfl rfl rfl

/-- C3, counterexample: for the spec's prose-wrapped completion the code
performs no brace-span slicing at all: the embedded object alone is
Schema-valid, yet `repair_json` returns `None` on the wrapped string, so
validation never succeeds on it. -/
theorem prose_wrapped_not_sliced :
    repair_json (c3Str.data) = none ∧
    json_loads (goodJson.data) = some goodJsonVal ∧
    validate goodJsonVal = some goodEval := by
  exact ⟨rfl, rfl, rfl⟩

/-- C3, amended: `repair_json` has no first-brace/last-brace extraction
step, so a Schema-valid object surrounded by prose fails the repair stage
and the pipeline returns the fallback. -/
theorem prose_wrapped_returns_fallback :
    processContent (c3Str.data) = (FALLBACK_RESPONSE, Stage.repairFailed) := by
  exact rfl

/-- C4, counterexample: a completion that is Schema-valid JSON except for
a trailing comma separated from the closing bracket by a space is NOT
repaired — the source only rewrites the two-character sequences ",\x7d"
and ",]" — so repair fails where the claim asserts it succeeds.  The
same completion without the trailing comma parses and validates. -/
theorem spaced_trailing_comma_not_repaired :
    repair_json (c4ws.data) = none ∧
    json_loads (goodJson.data) = some goodJsonVal ∧
    validate goodJsonVal = some goodEval := by
  exact ⟨rfl, rfl, rfl⟩

/-- C4, amended: for a trailing comma written directly before the closing
bracket, repair succeeds where strict parsing fails, and the pipeline
returns the validated result. -/
theorem adjacent_trailing_comma_repaired :
    json_loads (c4adj.data) = none ∧
    repair_json (c4adj.data) = some goodJsonVal ∧
    processContent (c4adj.data) = (goodEval, Stage.ok) := by
  exact ⟨rfl, rfl, rfl⟩

/-- C5: whenever the repaired completion parses to an object missing at
least one of the five required top-level keys, the pipeline returns
exactly the static `FALLBACK_RESPONSE`, never a partially populated
result (the empty object additionally falls into the repair-failed
branch by Python truthiness, with the same fallback result). -/
theorem missing_key_returns_fallback (c : PyStr) (fields : List (PyStr × Json))
    (h1 : repair_json c = some (Json.obj fields))
    (h2 : lookup ("score".data) fields = none ∨
          lookup ("swotAnalysis".data) fields = none ∨
          lookup ("mvpSuggestions".data) fields = none ∨
          lookup ("businessModelIdeas".data) fields = none ∨
          lookup ("marketAnalysis".data) fields = none) :
    (processContent c).1 = FALLBACK_RESPONSE := by
  unfold processContent
  rw [h1]
  cases fields with
  | nil => rfl
  | cons a r =>
    have hv : validate (Json.obj (a :: r)) = none := validate_none_of_missing h2
    simp [truthy, hv]

/-- Witness for C5 at the concrete completion `c5Str`, an object missing
every required key. -/
theorem missing_key_returns_fallback_witness :
    (processContent (c5Str.data)).1 = FALLBACK_RESPONSE :=
  missing_key_returns_fallback (c5Str.data) [("foo".data, Json.num 1)] rfl
    (Or.inl rfl)

/-- C7, counterexample: the textual chain of `repair_json` is not
idempotent: on ",,\x7d" one application yields ",\x7d" and a second
application rewrites that again to "\x7d". -/
theorem repair_chain_not_idempotent :
    repairText (repairText (",,\x7d".data)) ≠ repairText (",,\x7d".data) := by
  decide

/-- C7, amended: the chain is idempotent only on strings free of the
characters that can seed its patterns (backslash, comma, backtick,
capital T and F); on such strings it degenerates to the idempotent
whitespace trim.  In general a second application can rewrite further,
as the counterexample shows. -/
theorem repair_chain_idempotent_on_inert (s : PyStr)
    (h : ∀ c ∈ s, safeChar c = true) :
    repairText (repairText s) = repairText s := by
  have h1 : repairText s = stripPy s := repairText_eq_strip_of_safe s h
  have h2 : ∀ c ∈ stripPy s, safeChar c = true :=
    fun c hc => h c (mem_of_mem_stripPy hc)
  rw [h1, repairText_eq_strip_of_safe _ h2, stripPy_idem]

/-- Witness for the amended C7 on a concrete inert string. -/
theorem repair_chain_idempotent_witness :
    repairText (repairText ("hello world".data)) = repairText ("hello world".data) :=
  repair_chain_idempotent_on_inert ("hello world".data) (by decide)

/-- C8: the validator performs no range check on the numeric score
fields: any integer scores validate, and the concrete out-of-range
completion (overall 150, marketPotential -5) passes through the whole
repair-and-validate stage unchanged. -/
theorem scores_not_range_checked :
    (∀ a b c : Int,
      validate (scoreProbe a b c) = some (scoreProbeEval a b c)) ∧
    processContent (outOfRangeJson.data) = (scoreProbeEval 150 (-5) 80, Stage.ok) := by
  constructor
  · intro a b c
    rfl
  · rfl

/-- C9: whenever the repaired completion parses successfully to a falsy
value, the orchestrator's `if not parsed_data` truthiness test sends the
request down the repair-failed branch and returns the fallback. -/
theorem falsy_parse_is_repair_failure (c : PyStr) (j : Json)
    (h1 : repair_json c = some j) (h2 : truthy j = false) :
    processContent c = (FALLBACK_RESPONSE, Stage.repairFailed) := by
  unfold processContent
  rw [h1]
  simp [h2]

/-- Witness for C9 at the completion "null", which parses to a falsy
value. -/
theorem falsy_parse_witness :
    processContent ("null".data) = (FALLBACK_RESPONSE, Stage.repairFailed) :=
  falsy_parse_is_repair_failure ("null".data) Json.null rfl rfl

/-- C10: validation ignores any extra top-level key (such as the
"isGibberish" flag requested by the prompt): adding a non-schema key to a
parsed object leaves the validation result unchanged, so the returned
evaluation carries exactly the five schema fields. -/
theorem extra_toplevel_key_ignored (k : PyStr) (j : Json)
    (fields : List (PyStr × Json))
    (h1 : k ≠ "score".data) (h2 : k ≠ "swotAnalysis".data)
    (h3 : k ≠ "mvpSuggestions".data) (h4 : k ≠ "businessModelIdeas".data)
    (h5 : k ≠ "marketAnalysis".data) :
    validate (Json.obj ((k, j) :: fields)) = validate (Json.obj fields) := by
  rw [validate_obj_def, validate_obj_def]
  simp only [lookup, if_neg h1, if_neg h2, if_neg h3, if_neg h4, if_neg h5]

/-- Witness for C10: an "isGibberish" key prepended to the good fields is
silently dropped. -/
theorem extra_toplevel_key_ignored_witness :
    validate (Json.obj (("isGibberish".data, Json.bool true) :: goodFields)) =
      validate (Json.obj goodFields) :=
  extra_toplevel_key_ignored ("isGibberish".data) (Json.bool true) goodFields
    (by decide) (by decide) (by decide) (by decide) (by decide)

/-- The repair-and-validate stage always produces either the static
fallback or a value for which some JSON value validates. -/
theorem processContent_fallback_or_validated (c : PyStr) :
    (processContent c).1 = FALLBACK_RESPONSE ∨
    ∃ j, validate j = some ((processContent c).1) := by
  unfold processContent
  rcases hr : repair_json c with _ | j
  · exact Or.inl rfl
  · cases htr : truthy j with
    | false =>
      left
      simp [htr]
    | true =>
      cases j with
      | obj f =>
        rcases hv : validate (Json.obj f) with _ | v
        · left
          simp [htr, hv]
        · right
          exact ⟨Json.obj f, by simp [htr, hv]⟩
      | null =>
        left
        simp [htr]
      | bool b =>
        left
        simp [htr]
      | num n =>
        left
        simp [htr]
      | str s =>
        left
        simp [htr]
      | arr l =>
        left
        simp [htr]

/-- C1: for every idea, credential state and provider behavior — raised
connection errors, non-200 liveness status, non-2xx generation status,
unusable body, empty choices, malformed or falsy or invalid completions —
the orchestrator returns a `StartupEvaluation` value that is either the
static `FALLBACK_RESPONSE` or a validated completion; by its total type
no taxonomy failure escapes as a fault. -/
theorem pipeline_always_fallback_or_validated (idea : StartupIdea)
    (key : Option PyStr) (beh : ProviderBehavior) :
    (validate_startup_idea idea key beh).1 = FALLBACK_RESPONSE ∨
    ∃ j, validate j = some ((validate_startup_idea idea key beh).1) := by
  obtain ⟨mr, pr⟩ := beh
  cases key with
  | none => exact Or.inl rfl
  | some k =>
    by_cases hk : k = []
    · left
      simp [validate_startup_idea, hk]
    · rcases mr with u | st
      · left
        simp [validate_startup_idea, hk]
      · by_cases hst : st = 200
        · subst hst
          rcases pr with u | ⟨ps, ob⟩
          · left
            simp [validate_startup_idea, hk]
          · by_cases hps : 200 ≤ ps ∧ ps < 300
            · rcases ob with _ | body
              · left
                simp [validate_startup_idea, hk, hps]
              · rcases hex : extractContent body with st2 | content
                · left
                  simp [validate_startup_idea, hk, hps, hex]
                · have heq :
                      (validate_startup_idea idea (some k)
                        ⟨Except.ok 200, Except.ok (ps, some body)⟩).1 =
                        (processContent content).1 := by
                    simp [validate_startup_idea, hk, hps, hex]
                  rw [heq]
                  exact processContent_fallback_or_validated content
            · left
              simp [validate_startup_idea, hk, hps]
        · left
          simp [validate_startup_idea, hk, hst]

/-- C6: whenever the liveness probe returns a status other than 200 the
orchestrator answers with the static fallback and the generation POST is
never issued in that request. -/
theorem liveness_failure_skips_post (idea : StartupIdea) (key : Option PyStr)
    (beh : ProviderBehavior) (s : Nat) (h1 : beh.modelsResult = Except.ok s)
    (h2 : s ≠ 200) :
    (validate_startup_idea idea key beh).1 = FALLBACK_RESPONSE ∧
    Call.postChat ∉ (validate_startup_idea idea key beh).2.1 := by
  obtain ⟨mr, pr⟩ := beh
  have h1 : mr = Except.ok s := h1
  subst h1
  cases key with
  | none => exact ⟨rfl, fun h => nomatch h⟩
  | some k =>
    by_cases hk : k = []
    · simp [validate_startup_idea, hk]
    · constructor
      · simp [validate_startup_idea, hk, h2]
      · simp [validate_startup_idea, hk, h2]

/-- Witness for C6 at a concrete 503 liveness status. -/
theorem liveness_failure_skips_post_witness :
    (validate_startup_idea sampleIdea (some ("k".data))
        ⟨Except.ok 503, Except.ok (200, none)⟩).1 = FALLBACK_RESPONSE ∧
    Call.postChat ∉ (validate_startup_idea sampleIdea (some ("k".data))
        ⟨Except.ok 503, Except.ok (200, none)⟩).2.1 :=
  liveness_failure_skips_post sampleIdea (some ("k".data))
    ⟨Except.ok 503, Except.ok (200, none)⟩ 503 rfl (by decide)

end VetAI
